import Mathlib

/-!
# SpaceWar client and game engine: menu dispatch, connection session, frame ticks

A shallow embedding of the inline member functions of `SpaceWarClient.h` and
`gameengineosx.h`, together with the parts of the client whose bodies live in
`SpaceWarClient.cpp` (not among the sources), which are modelled from the
specification and marked as such.

Conventions

* `uint32`, `uint64`, `int32` are `Nat` / `Int`; wrap-around is written out
  with `% 2^64` where the source does arithmetic (`uint64_sub`).  The menu
  handlers only pass these values on, so no reduction is needed there.
* A member function `void f(args)` of an object with state `σ` is a function
  `args → σ → σ`; one returning a value returns a pair `(value, σ)`.
-/

set_option autoImplicit false

/-! ## Scalar types -/

/-- The C++ `uint32` (values below `2^32`). -/
abbrev uint32 := Nat

/-- The C++ `uint64` (values below `2^64`). -/
abbrev uint64 := Nat

/-- The C++ `int32`. -/
abbrev int32 := Int

/-- The 64-bit Steam identifier `CSteamID`, by its numeric value. -/
abbrev CSteamID := Nat

/-- The socket handle `SNetSocket_t` (a `uint32` of the Steam API); `0` is the null handle. -/
abbrev SNetSocket_t := Nat

/-- The modulus of `uint64` arithmetic. -/
def UINT64_MOD : Nat := 2 ^ 64

/-- Subtraction of two `uint64` values as the machine does it: modulo `2^64`. -/
def uint64_sub (a b : uint64) : uint64 :=
  (a + (UINT64_MOD - b % UINT64_MOD)) % UINT64_MOD

/-! ## Enumerations and menu payloads (`SpaceWarClient.h`) -/

/-- Modelled from the spec: the declaration of `EClientGameState` is in `SpaceWar.h`,
which is not among the sources.  The two enumerators that `SpaceWarClient.h` names
(`k_EClientGameConnecting`, `k_EClientJoiningLobby`) are kept under their names; every
other enumerator of the game-state enumeration ("menu / browsing-servers /
browsing-lobbies / active-game / winner / draw / quit, etc.") is `other n`, with `n`
its position. -/
inductive EClientGameState
  | k_EClientGameConnecting
  | k_EClientJoiningLobby
  | other (n : Nat)
  deriving DecidableEq, Repr

/-- Enum for various client connection states. -/
inductive EClientConnectionState
  | k_EClientNotConnected
  | k_EClientConnectedPendingAuthentication
  | k_EClientConnectedAndAuthenticated
  deriving DecidableEq, Repr

/-- A game server as shown in the find servers menu. -/
structure ServerBrowserMenuData_t where
  m_eStateToTransitionTo : EClientGameState
  m_unIPAddress : uint32
  m_nConnectionPort : int32
  deriving DecidableEq, Repr

/-- A lobby as shown in the find lobbies menu. -/
structure LobbyBrowserMenuItem_t where
  m_steamIDLobby : CSteamID
  m_eStateToTransitionTo : EClientGameState
  deriving DecidableEq, Repr

/-! ## The menu handlers

The three inline overloads of `OnMenuSelection` do nothing but call
`SetGameState`, `InitiateServerConnection` and `SteamMatchmaking()->JoinLobby`.
The bodies of these three are not among the sources, so they are parameters
(`Callees`): each is an arbitrary function on the state `σ` it can reach (the
client object together with the matchmaking service and the transport).  Every
call a handler issues is also appended to a log, so that "calls exactly once"
and "calls in this order" are statements about the log. -/

/-- One call issued by a menu handler, with its arguments. -/
inductive Call
  | SetGameState (eState : EClientGameState)
  | InitiateServerConnection (unServerAddress : uint32) (nPort : int32)
  | JoinLobby (steamIDLobby : CSteamID)
  deriving DecidableEq, Repr

/-- The functions the menu handlers call and whose bodies are not in the header. -/
structure Callees (σ : Type) where
  SetGameState : EClientGameState → σ → σ
  InitiateServerConnection : uint32 → int32 → σ → σ
  JoinLobby : CSteamID → σ → σ

/-- The state a handler runs in: what the callees act on, and the calls issued so far
(oldest first). -/
structure Run (σ : Type) where
  state : σ
  calls : List Call

namespace CSpaceWarClient

variable {σ : Type}

/-- The call `SetGameState( eState )`. -/
def SetGameState (env : Callees σ) (eState : EClientGameState) (w : Run σ) : Run σ :=
  { state := env.SetGameState eState w.state
    calls := w.calls ++ [Call.SetGameState eState] }

/-- The call `InitiateServerConnection( unServerAddress, nPort )`. -/
def InitiateServerConnection (env : Callees σ) (unServerAddress : uint32) (nPort : int32)
    (w : Run σ) : Run σ :=
  { state := env.InitiateServerConnection unServerAddress nPort w.state
    calls := w.calls ++ [Call.InitiateServerConnection unServerAddress nPort] }

/-- The call `SteamMatchmaking()->JoinLobby( steamIDLobby )` (its return value is dropped
by the caller). -/
def JoinLobby (env : Callees σ) (steamIDLobby : CSteamID) (w : Run σ) : Run σ :=
  { state := env.JoinLobby steamIDLobby w.state
    calls := w.calls ++ [Call.JoinLobby steamIDLobby] }

/-- Menu callback handler for menus that just change state:
`void OnMenuSelection( EClientGameState eState ) { SetGameState( eState ); }`. -/
def OnMenuSelection_EClientGameState (env : Callees σ) (eState : EClientGameState)
    (w : Run σ) : Run σ :=
  SetGameState env eState w

/-- Menu callback handler for server browser selections:
`void OnMenuSelection( ServerBrowserMenuData_t selection )`. -/
def OnMenuSelection_ServerBrowserMenuData_t (env : Callees σ)
    (selection : ServerBrowserMenuData_t) (w : Run σ) : Run σ :=
  if selection.m_eStateToTransitionTo = EClientGameState.k_EClientGameConnecting then
    InitiateServerConnection env selection.m_unIPAddress selection.m_nConnectionPort w
  else
    SetGameState env selection.m_eStateToTransitionTo w

/-- Menu callback handler for lobby browser selections:
`void OnMenuSelection( LobbyBrowserMenuItem_t selection )`. -/
def OnMenuSelection_LobbyBrowserMenuItem_t (env : Callees σ)
    (selection : LobbyBrowserMenuItem_t) (w : Run σ) : Run σ :=
  -- start joining the lobby
  let w1 :=
    if selection.m_eStateToTransitionTo = EClientGameState.k_EClientJoiningLobby then
      JoinLobby env selection.m_steamIDLobby w
    else
      w
  SetGameState env selection.m_eStateToTransitionTo w1

end CSpaceWarClient

/-- The calls issued between two points of a run: what `after` logged beyond `before`. -/
def issued {σ : Type} (before after : Run σ) : List Call :=
  after.calls.drop before.calls.length

/-! ## The game engine's tick counters (`gameengineosx.h`) -/

/-- The fields of `CGameEngineGL` that the inline accessors read. -/
structure CGameEngineGL where
  m_bEngineReadyForUse : Bool
  m_bShuttingDown : Bool
  m_nWindowWidth : int32
  m_nWindowHeight : int32
  m_ulGameTickCount : uint64
  m_ulPreviousGameTickCount : uint64
  deriving DecidableEq, Repr

namespace CGameEngineGL

/-- The inline accessor `uint64 GetGameTickCount() { return m_ulGameTickCount; }`. -/
def GetGameTickCount (e : CGameEngineGL) : uint64 × CGameEngineGL :=
  (e.m_ulGameTickCount, e)

/-- The inline accessor
`uint64 GetGameTicksFrameDelta() { return m_ulGameTickCount - m_ulPreviousGameTickCount; }`. -/
def GetGameTicksFrameDelta (e : CGameEngineGL) : uint64 × CGameEngineGL :=
  (uint64_sub e.m_ulGameTickCount e.m_ulPreviousGameTickCount, e)

end CGameEngineGL

/-! ## The client object (`SpaceWarClient.h`, private data members) -/

/-- A ship object behind a `CShip *`, by its identity; `none` is the `NULL` pointer. -/
abbrev CShip := Nat

/-- The data members of `CSpaceWarClient` that carry session, roster and lobby state.  The
three roster arrays have `MAX_PLAYERS_PER_SERVER` entries in the source (the constant is
declared in `SpaceWar.h`, not among the sources); they are lists here.  The members that
only point at presentation objects (fonts, star field, sun, menus, textures) are left out. -/
structure CSpaceWarClient where
  /-- SteamID for the local user on this client. -/
  m_SteamIDLocalUser : CSteamID
  /-- Our ship position in the arrays below. -/
  m_uPlayerShipIndex : uint32
  /-- List of steamIDs for each player. -/
  m_rgSteamIDPlayers : List CSteamID
  /-- Ships for players, doubles as a way to check for open slots. -/
  m_rgpShips : List (Option CShip)
  /-- Player scores. -/
  m_rguPlayerScores : List uint32
  /-- Who just won the game. -/
  m_uPlayerWhoWonGame : uint32
  /-- Current game state. -/
  m_eGameState : EClientGameState
  /-- True if we only just transitioned state. -/
  m_bTransitionedGameState : Bool
  /-- Time the last state transition occurred. -/
  m_ulStateTransitionTime : uint64
  /-- Time we started our last connection attempt. -/
  m_ulLastConnectionAttemptRetryTime : uint64
  /-- Time we last got data from the server. -/
  m_ulLastNetworkDataReceivedTime : uint64
  /-- Text to display if we are in an error state. -/
  m_rgchErrorText : String
  /-- Socket to use when communicating with servers. -/
  m_hSocketClient : SNetSocket_t
  /-- Server address data. -/
  m_unServerIP : uint32
  /-- Server port (a `uint16` in the source). -/
  m_usServerPort : Nat
  /-- Whether we are connected to a server, and in what phase. -/
  m_eConnectedStatus : EClientConnectionState
  /-- Lobby creation in progress. -/
  m_bCreatingLobby : Bool
  /-- The lobby we are connected to. -/
  m_steamIDLobby : CSteamID
  deriving DecidableEq, Repr

/-! ## Transport and message envelope (spec §6) -/

/-- Modelled from the spec: the kind tags of the message envelope (`Messages.h` is not
among the sources): "every message carries a kind tag from a fixed set {hello,
server-info, auth-response, gameplay-update, server-exiting, client-leaving, lobby-*}". -/
inductive EMessage
  | hello
  | serverInfo
  | authResponse
  | gameplayUpdate
  | serverExiting
  | clientLeaving
  | lobby
  deriving DecidableEq, Repr

/-- Modelled from the spec: the handshake kinds, "the hello → server-info → auth-response
exchange preceding trusted gameplay traffic" (glossary). -/
def EMessage.isHandshake : EMessage → Bool
  | EMessage.hello => true
  | EMessage.serverInfo => true
  | EMessage.authResponse => true
  | _ => false

/-- Modelled from the spec: the payload of a server update (`ServerSpaceWarUpdateData_t` is
declared in `Messages.h`, not among the sources).  The spec treats it as "the authoritative
latest snapshot (... self-describing/complete, not a delta)" of the player slots, each
holding "an identity, an optional owned ship entity, and a numeric score". -/
structure ServerSpaceWarUpdateData_t where
  m_rgSteamIDPlayers : List CSteamID
  m_rgpShips : List (Option CShip)
  m_rguPlayerScores : List uint32
  deriving DecidableEq, Repr

/-- Modelled from the spec: one framed inbound message, by kind, with the arguments the
header's private handlers take (`OnReceiveServerInfo`,
`OnReceiveServerAuthenticationResponse`, `OnReceiveServerUpdate`). -/
inductive Message
  | hello
  | serverInfo (steamIDGameServer : CSteamID) (bVACSecure : Bool) (pchServerName : String)
  | authResponse (bSuccess : Bool) (uPlayerPosition : uint32)
  | gameplayUpdate (UpdateData : ServerSpaceWarUpdateData_t)
  | serverExiting
  | clientLeaving
  | lobby (n : Nat)
  deriving DecidableEq, Repr

/-- The kind tag of a message. -/
def Message.kind : Message → EMessage
  | Message.hello => EMessage.hello
  | Message.serverInfo _ _ _ => EMessage.serverInfo
  | Message.authResponse _ _ => EMessage.authResponse
  | Message.gameplayUpdate _ => EMessage.gameplayUpdate
  | Message.serverExiting => EMessage.serverExiting
  | Message.clientLeaving => EMessage.clientLeaving
  | Message.lobby _ => EMessage.lobby

/-- What is handed to the transport's send: a caller-supplied buffer
(`char *pData, uint32 nSizeOfData`), or a message the client builds itself, by kind. -/
inductive Payload
  | bytes (pData : List Nat) (nSizeOfData : uint32)
  | notice (kind : EMessage)
  deriving DecidableEq, Repr

/-- Modelled from the spec: an operation invoked on the transport (§6:
`send(handle, bytes, reliable)`, `close(handle)`). -/
inductive TransportOp
  | send (handle : SNetSocket_t) (payload : Payload) (reliable : Bool)
  | close (handle : SNetSocket_t)
  deriving DecidableEq, Repr

/-- Modelled from the spec: the transport as the client sees it, an external collaborator.
`send` answers success or failure; the answer may depend on everything invoked on the
transport before. -/
structure Transport where
  send : List TransportOp → SNetSocket_t → Payload → Bool → Bool

/-- The client together with what it reaches through pointers: the game engine
(`m_pGameEngine`) and the record of operations invoked on the transport, oldest first. -/
structure ClientWorld where
  client : CSpaceWarClient
  engine : CGameEngineGL
  transport : List TransportOp
  deriving DecidableEq, Repr

/-- The private message handlers declared in `SpaceWarClient.h`; their bodies are not among
the sources, so the dispatcher takes them as parameters. -/
structure Handlers where
  OnReceiveServerInfo : CSteamID → Bool → String → ClientWorld → ClientWorld
  OnReceiveServerAuthenticationResponse : Bool → uint32 → ClientWorld → ClientWorld
  OnReceiveServerUpdate : ServerSpaceWarUpdateData_t → ClientWorld → ClientWorld
  OnReceiveServerExiting : ClientWorld → ClientWorld

namespace CSpaceWarClient

open EClientConnectionState

/-- Modelled from the spec: `ConnectionSession.Send` (§4.1; body in `SpaceWarClient.cpp`,
not among the sources): "rejected (no-op, reports failure) if sub-state is `NotConnected`;
otherwise forwarded to the transport tagged with the requested delivery guarantee." -/
def ConnectionSession_Send (t : Transport) (payload : Payload) (bSendReliably : Bool)
    (w : ClientWorld) : Bool × ClientWorld :=
  if w.client.m_eConnectedStatus = k_EClientNotConnected then
    (false, w)
  else
    (t.send w.transport w.client.m_hSocketClient payload bSendReliably,
     { w with transport :=
         w.transport ++ [TransportOp.send w.client.m_hSocketClient payload bSendReliably] })

/-- Modelled from the spec: `BSendServerData` (§4.2; body in `SpaceWarClient.cpp`, not
among the sources): "fails (returns false) if not currently authenticated-and-active;
otherwise delegates to ConnectionSession.Send and returns its result." -/
def BSendServerData (t : Transport) (pData : List Nat) (nSizeOfData : uint32)
    (bSendReliably : Bool) (w : ClientWorld) : Bool × ClientWorld :=
  if w.client.m_eConnectedStatus ≠ k_EClientConnectedAndAuthenticated then
    (false, w)
  else
    ConnectionSession_Send t (Payload.bytes pData nSizeOfData) bSendReliably w

/-- Modelled from the spec: `DisconnectFromServer` (§4.1 `Disconnect()`, §4.2; body in
`SpaceWarClient.cpp`, not among the sources): "if sub-state ≠ `NotConnected`, sends a
best-effort "I'm leaving" notice (fire-and-forget, not retried) then releases the transport
handle and resets to `NotConnected`."  The spec does not fix the delivery mode of the
notice, so it is the parameter `bNoticeReliable`; the answer of the send is dropped. -/
def DisconnectFromServer (t : Transport) (bNoticeReliable : Bool) (w : ClientWorld) :
    ClientWorld :=
  if w.client.m_eConnectedStatus ≠ k_EClientNotConnected then
    let w1 := (ConnectionSession_Send t (Payload.notice EMessage.clientLeaving)
      bNoticeReliable w).2
    { w1 with
      transport := w1.transport ++ [TransportOp.close w1.client.m_hSocketClient]
      client := { w1.client with
        m_hSocketClient := 0
        m_eConnectedStatus := k_EClientNotConnected } }
  else
    w

/-- Modelled from the spec: the dispatch of one inbound message inside
`ReceiveNetworkData` (§4.2; body in `SpaceWarClient.cpp`, not among the sources): "Before
authentication, only handshake-kind messages are accepted — all others are silently
discarded. After authentication, gameplay-update and server-exiting messages are
accepted; handshake messages received again are ignored."  A `hello` is a handshake kind
that the client has no handler for. -/
def DispatchMessage (h : Handlers) (m : Message) (w : ClientWorld) : ClientWorld :=
  if w.client.m_eConnectedStatus ≠ k_EClientConnectedAndAuthenticated then
    match m with
    | Message.serverInfo steamIDGameServer bVACSecure pchServerName =>
        h.OnReceiveServerInfo steamIDGameServer bVACSecure pchServerName w
    | Message.authResponse bSuccess uPlayerPosition =>
        h.OnReceiveServerAuthenticationResponse bSuccess uPlayerPosition w
    | _ => w
  else
    match m with
    | Message.gameplayUpdate UpdateData => h.OnReceiveServerUpdate UpdateData w
    | Message.serverExiting => h.OnReceiveServerExiting w
    | _ => w

/-- Modelled from the spec: `ReceiveNetworkData` (§4.2; body in `SpaceWarClient.cpp`, not
among the sources): "reads zero or more framed messages from the transport; each message
carries a kind tag", dispatching each in arrival order.  `inbound` is what the transport's
poll hands over. -/
def ReceiveNetworkData (h : Handlers) (inbound : List Message) (w : ClientWorld) :
    ClientWorld :=
  inbound.foldl (fun acc m => DispatchMessage h m acc) w

/-- Modelled from the spec: `BLocalPlayerWonLastGame` (§4.2; body in `SpaceWarClient.cpp`,
not among the sources): "pure query — true iff the last recorded winning player slot
equals the local player's slot." -/
def BLocalPlayerWonLastGame (c : CSpaceWarClient) : Bool × CSpaceWarClient :=
  (decide (c.m_uPlayerWhoWonGame = c.m_uPlayerShipIndex), c)

end CSpaceWarClient

/-- The player roster of a client: identities, ships and scores. -/
def roster (c : CSpaceWarClient) : List CSteamID × List (Option CShip) × List uint32 :=
  (c.m_rgSteamIDPlayers, c.m_rgpShips, c.m_rguPlayerScores)

/-- Whether a logged call is a call of `SetGameState`. -/
def Call.isSetGameState : Call → Bool
  | Call.SetGameState _ => true
  | _ => false

/-- Whether a logged call is a call of `InitiateServerConnection`. -/
def Call.isInitiateServerConnection : Call → Bool
  | Call.InitiateServerConnection _ _ => true
  | _ => false

/-- Whether a logged call is a `JoinLobby` request. -/
def Call.isJoinLobby : Call → Bool
  | Call.JoinLobby _ => true
  | _ => false

/-! ## Sample inputs

Concrete callees, handlers, transport and states on which the definitions above are run.
The theorems below quantify over all callees, handlers and transports; these instances
only serve as inputs of the worked examples. -/

/-- Modelled from the spec: sample bodies for the callees of the menu handlers
(`SetGameState`, `InitiateServerConnection`, the matchmaking service's `JoinLobby`; none is
among the sources), keeping the field updates the spec states: the game state is "a single
enumerated value ... plus the timestamp of the last transition and a transition-edge
flag", changed "whenever the state actually changes"; `InitiateServerConnection` "sets
game-state to connecting ... resets the error text" and the session "sets sub-state to
`PendingAuthentication`, records attempt-start time"; matchmaking requests are
"fire-and-forget with results delivered later as events".  Transport traffic and the
state-specific setup of `OnGameStateChanged` are not part of this sample. -/
def sampleCallees : Callees ClientWorld where
  SetGameState := fun eState w =>
    if w.client.m_eGameState = eState then w
    else { w with client := { w.client with
      m_eGameState := eState
      m_bTransitionedGameState := true
      m_ulStateTransitionTime := w.engine.m_ulGameTickCount } }
  InitiateServerConnection := fun unServerAddress nPort w =>
    { w with client := { w.client with
      m_eGameState := EClientGameState.k_EClientGameConnecting
      m_bTransitionedGameState := true
      m_ulStateTransitionTime := w.engine.m_ulGameTickCount
      m_unServerIP := unServerAddress
      m_usServerPort := (nPort % 65536).toNat
      m_eConnectedStatus := EClientConnectionState.k_EClientConnectedPendingAuthentication
      m_ulLastConnectionAttemptRetryTime := w.engine.m_ulGameTickCount
      m_rgchErrorText := "" } }
  JoinLobby := fun _ w => w

/-- Modelled from the spec: sample bodies for the private message handlers (none is among
the sources), keeping what the spec states: a server-info reply "does not itself flip
authentication"; an authentication response "on success, sub-state →
`AuthenticatedAndActive`, the client's assigned player slot is recorded, and
last-data-received timestamp resets; on failure, sub-state → `Disconnected`, error text
set"; a server update is "the authoritative latest snapshot" of the player slots; on
server exit the "roster is cleared" and the link is gone.  The game-state changes that go
with a failed authentication and a server exit are not part of this sample: the
enumerators they lead to are declared in `SpaceWar.h` and named nowhere in the sources. -/
def sampleHandlers : Handlers where
  OnReceiveServerInfo := fun _ _ _ w => w
  OnReceiveServerAuthenticationResponse := fun bSuccess uPlayerPosition w =>
    if bSuccess then
      { w with client := { w.client with
        m_eConnectedStatus := EClientConnectionState.k_EClientConnectedAndAuthenticated
        m_uPlayerShipIndex := uPlayerPosition
        m_ulLastNetworkDataReceivedTime := w.engine.m_ulGameTickCount } }
    else
      { w with client := { w.client with
        m_eConnectedStatus := EClientConnectionState.k_EClientNotConnected
        m_rgchErrorText := "authentication failed" } }
  OnReceiveServerUpdate := fun UpdateData w =>
    { w with client := { w.client with
      m_rgSteamIDPlayers := UpdateData.m_rgSteamIDPlayers
      m_rgpShips := UpdateData.m_rgpShips
      m_rguPlayerScores := UpdateData.m_rguPlayerScores } }
  OnReceiveServerExiting := fun w =>
    { w with client := { w.client with
      m_eConnectedStatus := EClientConnectionState.k_EClientNotConnected
      m_rgSteamIDPlayers := w.client.m_rgSteamIDPlayers.map (fun _ => 0)
      m_rgpShips := w.client.m_rgpShips.map (fun _ => none)
      m_rguPlayerScores := w.client.m_rguPlayerScores.map (fun _ => 0) } }

/-- A transport whose send always succeeds. -/
def sampleTransport : Transport where
  send := fun _ _ _ _ => true

/-- A client in the menus, not connected, with four empty player slots. -/
def sampleClient : CSpaceWarClient where
  m_SteamIDLocalUser := 76561197960265728
  m_uPlayerShipIndex := 0
  m_rgSteamIDPlayers := [0, 0, 0, 0]
  m_rgpShips := [none, none, none, none]
  m_rguPlayerScores := [0, 0, 0, 0]
  m_uPlayerWhoWonGame := 0
  m_eGameState := EClientGameState.other 3
  m_bTransitionedGameState := false
  m_ulStateTransitionTime := 0
  m_ulLastConnectionAttemptRetryTime := 0
  m_ulLastNetworkDataReceivedTime := 0
  m_rgchErrorText := ""
  m_hSocketClient := 0
  m_unServerIP := 0
  m_usServerPort := 0
  m_eConnectedStatus := EClientConnectionState.k_EClientNotConnected
  m_bCreatingLobby := false
  m_steamIDLobby := 0

/-- An engine 16 ms into its second frame. -/
def sampleEngine : CGameEngineGL where
  m_bEngineReadyForUse := true
  m_bShuttingDown := false
  m_nWindowWidth := 1024
  m_nWindowHeight := 768
  m_ulGameTickCount := 32
  m_ulPreviousGameTickCount := 16

/-- An engine whose previous tick count is ahead of the current one. -/
def sampleEngineBehind : CGameEngineGL :=
  { sampleEngine with m_ulGameTickCount := 5, m_ulPreviousGameTickCount := 7 }

/-- The sample client with the sample engine and nothing sent yet. -/
def sampleWorld : ClientWorld where
  client := sampleClient
  engine := sampleEngine
  transport := []

/-- The sample client waiting for the server's authentication response on socket 9. -/
def samplePendingWorld : ClientWorld :=
  { sampleWorld with client := { sampleClient with
      m_hSocketClient := 9
      m_eConnectedStatus := EClientConnectionState.k_EClientConnectedPendingAuthentication } }

/-- A run of the menu handlers that starts from the sample world with one earlier call
already logged. -/
def sampleRun : Run ClientWorld where
  state := sampleWorld
  calls := [Call.SetGameState (EClientGameState.other 3)]

/-- A server update that puts two players into the first two slots. -/
def sampleUpdate : ServerSpaceWarUpdateData_t where
  m_rgSteamIDPlayers := [76561197960265728, 76561197960265729, 0, 0]
  m_rgpShips := [some 1, some 2, none, none]
  m_rguPlayerScores := [3, 1, 0, 0]

/-! ## Helper lemmas -/

open CSpaceWarClient

/-- What a run logged beyond an earlier point is exactly the calls appended since. -/
theorem issued_of_append {σ : Type} (w w' : Run σ) (cs : List Call)
    (h : w'.calls = w.calls ++ cs) : issued w w' = cs := by
  unfold issued
  rw [h]
  simp

/-- Before authentication a message that is not of a handshake kind is dropped. -/
theorem DispatchMessage_discard (h : Handlers) (m : Message) (w : ClientWorld)
    (hs : w.client.m_eConnectedStatus
      ≠ EClientConnectionState.k_EClientConnectedAndAuthenticated)
    (hk : m.kind.isHandshake = false) : DispatchMessage h m w = w := by
  cases m <;> simp [DispatchMessage, hs, Message.kind, EMessage.isHandshake] at hk ⊢

/-- Before authentication a batch without handshake-kind messages is dropped whole. -/
theorem ReceiveNetworkData_discard (h : Handlers) (inbound : List Message) (w : ClientWorld)
    (hs : w.client.m_eConnectedStatus
      ≠ EClientConnectionState.k_EClientConnectedAndAuthenticated)
    (hk : ∀ m ∈ inbound, m.kind.isHandshake = false) :
    ReceiveNetworkData h inbound w = w := by
  induction inbound with
  | nil => rfl
  | cons m rest ih =>
    have hm : DispatchMessage h m w = w :=
      DispatchMessage_discard h m w hs (hk m (List.mem_cons_self m rest))
    have hrest : ∀ x ∈ rest, x.kind.isHandshake = false :=
      fun x hx => hk x (List.mem_cons_of_mem m hx)
    have step : ReceiveNetworkData h (m :: rest) w
        = ReceiveNetworkData h rest (DispatchMessage h m w) := rfl
    rw [step, hm]
    exact ih hrest

/-- Wrap-around subtraction agrees with subtraction of integers modulo `2^64`. -/
theorem uint64_sub_int (a b : Nat) :
    ((uint64_sub a b : Nat) : Int) = ((a : Int) - (b : Int)) % 2 ^ 64 := by
  unfold uint64_sub UINT64_MOD
  norm_num
  omega

/-- Without a borrow the wrap-around subtraction is the exact difference. -/
theorem uint64_sub_of_le (a b : Nat) (ha : a < 2 ^ 64) (hle : b ≤ a) :
    uint64_sub a b = a - b := by
  show @Eq Nat (uint64_sub a b) (a - b)
  unfold uint64_sub UINT64_MOD
  have e : (2 : Nat) ^ 64 = 18446744073709551616 := by norm_num
  rw [e] at ha ⊢
  omega

/-- With a borrow the wrap-around subtraction is `2^64` minus the gap. -/
theorem uint64_sub_of_lt (a b : Nat) (hb : b < 2 ^ 64) (hlt : a < b) :
    uint64_sub a b = 2 ^ 64 - (b - a) := by
  show @Eq Nat (uint64_sub a b) (2 ^ 64 - (b - a))
  unfold uint64_sub UINT64_MOD
  have e : (2 : Nat) ^ 64 = 18446744073709551616 := by norm_num
  rw [e] at hb ⊢
  omega

/-! ## The claims -/

/-- C1: for a server-browser selection whose target is `k_EClientGameConnecting`, the
handler is one call of `InitiateServerConnection` with the selection's address and port:
that is the only call it issues, the resulting state is what that call produces, and no
`SetGameState` call is issued by the handler. -/
theorem OnMenuSelection_server_connecting {σ : Type} (env : Callees σ)
    (selection : ServerBrowserMenuData_t) (w : Run σ)
    (h : selection.m_eStateToTransitionTo = EClientGameState.k_EClientGameConnecting) :
    issued w (OnMenuSelection_ServerBrowserMenuData_t env selection w)
        = [Call.InitiateServerConnection selection.m_unIPAddress selection.m_nConnectionPort]
      ∧ (OnMenuSelection_ServerBrowserMenuData_t env selection w).state
        = env.InitiateServerConnection selection.m_unIPAddress selection.m_nConnectionPort
            w.state
      ∧ (issued w (OnMenuSelection_ServerBrowserMenuData_t env selection w)).filter
          Call.isSetGameState = [] := by
  have hrun : OnMenuSelection_ServerBrowserMenuData_t env selection w
      = InitiateServerConnection env selection.m_unIPAddress selection.m_nConnectionPort w := by
    simp [OnMenuSelection_ServerBrowserMenuData_t, h]
  have hiss : issued w (OnMenuSelection_ServerBrowserMenuData_t env selection w)
      = [Call.InitiateServerConnection selection.m_unIPAddress selection.m_nConnectionPort] :=
    issued_of_append w _ _ (by rw [hrun]; rfl)
  refine ⟨hiss, by rw [hrun]; rfl, ?_⟩
  rw [hiss]
  rfl

/-- C1, at the sample run: selecting server 127.0.0.1:27015 with target "connecting". -/
theorem OnMenuSelection_server_connecting_witness :
    (⟨EClientGameState.k_EClientGameConnecting, 2130706433, 27015⟩ :
        ServerBrowserMenuData_t).m_eStateToTransitionTo
        = EClientGameState.k_EClientGameConnecting
      ∧ issued sampleRun (OnMenuSelection_ServerBrowserMenuData_t sampleCallees
          ⟨EClientGameState.k_EClientGameConnecting, 2130706433, 27015⟩ sampleRun)
        = [Call.InitiateServerConnection 2130706433 27015]
      ∧ (OnMenuSelection_ServerBrowserMenuData_t sampleCallees
          ⟨EClientGameState.k_EClientGameConnecting, 2130706433, 27015⟩ sampleRun).state
        = sampleCallees.InitiateServerConnection 2130706433 27015 sampleRun.state
      ∧ (issued sampleRun (OnMenuSelection_ServerBrowserMenuData_t sampleCallees
          ⟨EClientGameState.k_EClientGameConnecting, 2130706433, 27015⟩ sampleRun)).filter
          Call.isSetGameState = [] :=
  ⟨rfl, OnMenuSelection_server_connecting sampleCallees
    ⟨EClientGameState.k_EClientGameConnecting, 2130706433, 27015⟩ sampleRun rfl⟩

/-- C2: for a lobby-browser selection whose target is `k_EClientJoiningLobby`, the handler
issues exactly two calls, first `JoinLobby` for the selection's lobby and then
`SetGameState( k_EClientJoiningLobby )`; the resulting state is what these two calls
produce in that order, so the handler writes nothing itself: every observation of the
state (the lobby roster, `m_steamIDLobby`) that the two callees leave alone is the same
after the handler as before. -/
theorem OnMenuSelection_lobby_joining {σ : Type} (env : Callees σ)
    (selection : LobbyBrowserMenuItem_t) (w : Run σ)
    (h : selection.m_eStateToTransitionTo = EClientGameState.k_EClientJoiningLobby) :
    issued w (OnMenuSelection_LobbyBrowserMenuItem_t env selection w)
        = [Call.JoinLobby selection.m_steamIDLobby,
           Call.SetGameState EClientGameState.k_EClientJoiningLobby]
      ∧ (OnMenuSelection_LobbyBrowserMenuItem_t env selection w).state
        = env.SetGameState EClientGameState.k_EClientJoiningLobby
            (env.JoinLobby selection.m_steamIDLobby w.state)
      ∧ ∀ (α : Type) (observe : σ → α),
          (∀ e s, observe (env.SetGameState e s) = observe s) →
          (∀ l s, observe (env.JoinLobby l s) = observe s) →
          observe (OnMenuSelection_LobbyBrowserMenuItem_t env selection w).state
            = observe w.state := by
  have hrun : OnMenuSelection_LobbyBrowserMenuItem_t env selection w
      = SetGameState env EClientGameState.k_EClientJoiningLobby
          (JoinLobby env selection.m_steamIDLobby w) := by
    simp [OnMenuSelection_LobbyBrowserMenuItem_t, h]
  refine ⟨issued_of_append w _ _ (by rw [hrun]; simp [SetGameState, JoinLobby]),
    by rw [hrun]; rfl, ?_⟩
  intro α observe hset hjoin
  rw [hrun]
  show observe (env.SetGameState _ (env.JoinLobby _ w.state)) = observe w.state
  rw [hset, hjoin]

/-- C2, at the sample run: joining lobby 109775240917155841; `m_steamIDLobby` is the
observation left alone. -/
theorem OnMenuSelection_lobby_joining_witness :
    (⟨109775240917155841, EClientGameState.k_EClientJoiningLobby⟩ :
        LobbyBrowserMenuItem_t).m_eStateToTransitionTo
        = EClientGameState.k_EClientJoiningLobby
      ∧ issued sampleRun (OnMenuSelection_LobbyBrowserMenuItem_t sampleCallees
          ⟨109775240917155841, EClientGameState.k_EClientJoiningLobby⟩ sampleRun)
        = [Call.JoinLobby 109775240917155841,
           Call.SetGameState EClientGameState.k_EClientJoiningLobby]
      ∧ (OnMenuSelection_LobbyBrowserMenuItem_t sampleCallees
          ⟨109775240917155841, EClientGameState.k_EClientJoiningLobby⟩ sampleRun).state.client.m_eGameState
        = EClientGameState.k_EClientJoiningLobby
      ∧ (OnMenuSelection_LobbyBrowserMenuItem_t sampleCallees
          ⟨109775240917155841, EClientGameState.k_EClientJoiningLobby⟩ sampleRun).state.client.m_steamIDLobby
        = sampleRun.state.client.m_steamIDLobby :=
  have key := OnMenuSelection_lobby_joining sampleCallees
    ⟨109775240917155841, EClientGameState.k_EClientJoiningLobby⟩ sampleRun rfl
  ⟨rfl, key.1, by rw [key.2.1]; rfl, key.2.2 CSteamID (fun s => s.client.m_steamIDLobby)
    (by intro e s; simp only [sampleCallees]; split <;> rfl) (by intro l s; rfl)⟩

/-- C3: the plain-target handler is `SetGameState( eState )`: for every game state and every
run it gives the same run (state and log) as one call of `SetGameState`, it issues that
one call and nothing else, hence no connection attempt and no matchmaking request. -/
theorem OnMenuSelection_plain_is_SetGameState {σ : Type} (env : Callees σ)
    (eState : EClientGameState) (w : Run σ) :
    OnMenuSelection_EClientGameState env eState w = SetGameState env eState w
      ∧ (OnMenuSelection_EClientGameState env eState w).state
        = env.SetGameState eState w.state
      ∧ issued w (OnMenuSelection_EClientGameState env eState w)
        = [Call.SetGameState eState]
      ∧ (issued w (OnMenuSelection_EClientGameState env eState w)).filter
          Call.isInitiateServerConnection = []
      ∧ (issued w (OnMenuSelection_EClientGameState env eState w)).filter
          Call.isJoinLobby = [] := by
  have hiss : issued w (OnMenuSelection_EClientGameState env eState w)
      = [Call.SetGameState eState] := issued_of_append w _ _ rfl
  refine ⟨rfl, rfl, hiss, ?_, ?_⟩ <;> rw [hiss] <;> rfl

/-- C8: for a server-browser selection whose target is not `k_EClientGameConnecting`, the
handler is `SetGameState( selection.m_eStateToTransitionTo )`: same run, that one call
issued, no `InitiateServerConnection`; the address and port are ignored, so any other
selection with the same target gives the same run. -/
theorem OnMenuSelection_server_other {σ : Type} (env : Callees σ)
    (selection : ServerBrowserMenuData_t) (w : Run σ)
    (h : selection.m_eStateToTransitionTo ≠ EClientGameState.k_EClientGameConnecting) :
    OnMenuSelection_ServerBrowserMenuData_t env selection w
        = SetGameState env selection.m_eStateToTransitionTo w
      ∧ issued w (OnMenuSelection_ServerBrowserMenuData_t env selection w)
        = [Call.SetGameState selection.m_eStateToTransitionTo]
      ∧ (issued w (OnMenuSelection_ServerBrowserMenuData_t env selection w)).filter
          Call.isInitiateServerConnection = []
      ∧ ∀ (unIPAddress : uint32) (nConnectionPort : int32),
          OnMenuSelection_ServerBrowserMenuData_t env
              ⟨selection.m_eStateToTransitionTo, unIPAddress, nConnectionPort⟩ w
            = OnMenuSelection_ServerBrowserMenuData_t env selection w := by
  have hrun : OnMenuSelection_ServerBrowserMenuData_t env selection w
      = SetGameState env selection.m_eStateToTransitionTo w := by
    simp [OnMenuSelection_ServerBrowserMenuData_t, h]
  have hiss : issued w (OnMenuSelection_ServerBrowserMenuData_t env selection w)
      = [Call.SetGameState selection.m_eStateToTransitionTo] :=
    issued_of_append w _ _ (by rw [hrun]; rfl)
  refine ⟨hrun, hiss, by rw [hiss]; rfl, ?_⟩
  intro unIPAddress nConnectionPort
  rw [hrun]
  simp [OnMenuSelection_ServerBrowserMenuData_t, h]

/-- C8, at the sample run: a server-browser selection that leads back to state 3, with two
different addresses. -/
theorem OnMenuSelection_server_other_witness :
    (⟨EClientGameState.other 3, 2130706433, 27015⟩ :
        ServerBrowserMenuData_t).m_eStateToTransitionTo
        ≠ EClientGameState.k_EClientGameConnecting
      ∧ issued sampleRun (OnMenuSelection_ServerBrowserMenuData_t sampleCallees
          ⟨EClientGameState.other 3, 2130706433, 27015⟩ sampleRun)
        = [Call.SetGameState (EClientGameState.other 3)]
      ∧ OnMenuSelection_ServerBrowserMenuData_t sampleCallees
          ⟨EClientGameState.other 3, 167772161, 27016⟩ sampleRun
        = OnMenuSelection_ServerBrowserMenuData_t sampleCallees
          ⟨EClientGameState.other 3, 2130706433, 27015⟩ sampleRun :=
  have key := OnMenuSelection_server_other sampleCallees
    ⟨EClientGameState.other 3, 2130706433, 27015⟩ sampleRun (by decide)
  ⟨by decide, key.2.1, key.2.2.2 167772161 27016⟩

/-- C9: the lobby-browser handler issues a `JoinLobby` request exactly when the target is
`k_EClientJoiningLobby` (and then for the selection's lobby, before anything else); for
every selection it calls `SetGameState` exactly once, with the selection's target, as its
last call.  The calls are carried out, not only logged: the resulting state is
`SetGameState( target )` applied to the state after the `JoinLobby` request (joining) or to
the state the handler started from (any other target).  For a target other than joining
the handler is `SetGameState( target )` and the lobby id is ignored. -/
theorem OnMenuSelection_lobby_calls {σ : Type} (env : Callees σ)
    (selection : LobbyBrowserMenuItem_t) (w : Run σ) :
    (OnMenuSelection_LobbyBrowserMenuItem_t env selection w).state
        = env.SetGameState selection.m_eStateToTransitionTo
            (if selection.m_eStateToTransitionTo = EClientGameState.k_EClientJoiningLobby
              then env.JoinLobby selection.m_steamIDLobby w.state else w.state)
      ∧ issued w (OnMenuSelection_LobbyBrowserMenuItem_t env selection w)
        = (if selection.m_eStateToTransitionTo = EClientGameState.k_EClientJoiningLobby
            then [Call.JoinLobby selection.m_steamIDLobby,
                  Call.SetGameState selection.m_eStateToTransitionTo]
            else [Call.SetGameState selection.m_eStateToTransitionTo])
      ∧ (selection.m_eStateToTransitionTo = EClientGameState.k_EClientJoiningLobby →
          OnMenuSelection_LobbyBrowserMenuItem_t env selection w
            = SetGameState env selection.m_eStateToTransitionTo
                (JoinLobby env selection.m_steamIDLobby w))
      ∧ ((issued w (OnMenuSelection_LobbyBrowserMenuItem_t env selection w)).filter
          Call.isJoinLobby ≠ []
        ↔ selection.m_eStateToTransitionTo = EClientGameState.k_EClientJoiningLobby)
      ∧ (issued w (OnMenuSelection_LobbyBrowserMenuItem_t env selection w)).filter
          Call.isJoinLobby
        = (if selection.m_eStateToTransitionTo = EClientGameState.k_EClientJoiningLobby
            then [Call.JoinLobby selection.m_steamIDLobby] else [])
      ∧ (issued w (OnMenuSelection_LobbyBrowserMenuItem_t env selection w)).filter
          Call.isSetGameState
        = [Call.SetGameState selection.m_eStateToTransitionTo]
      ∧ (issued w (OnMenuSelection_LobbyBrowserMenuItem_t env selection w)).getLast?
        = some (Call.SetGameState selection.m_eStateToTransitionTo)
      ∧ (selection.m_eStateToTransitionTo ≠ EClientGameState.k_EClientJoiningLobby →
          OnMenuSelection_LobbyBrowserMenuItem_t env selection w
              = SetGameState env selection.m_eStateToTransitionTo w
            ∧ ∀ (steamIDLobby : CSteamID),
                OnMenuSelection_LobbyBrowserMenuItem_t env
                    ⟨steamIDLobby, selection.m_eStateToTransitionTo⟩ w
                  = OnMenuSelection_LobbyBrowserMenuItem_t env selection w) := by
  by_cases h : selection.m_eStateToTransitionTo = EClientGameState.k_EClientJoiningLobby
  · have hrun : OnMenuSelection_LobbyBrowserMenuItem_t env selection w
        = SetGameState env selection.m_eStateToTransitionTo
            (JoinLobby env selection.m_steamIDLobby w) := by
      simp [OnMenuSelection_LobbyBrowserMenuItem_t, h]
    have hiss : issued w (OnMenuSelection_LobbyBrowserMenuItem_t env selection w)
        = [Call.JoinLobby selection.m_steamIDLobby,
           Call.SetGameState selection.m_eStateToTransitionTo] :=
      issued_of_append w _ _ (by rw [hrun]; simp [SetGameState, JoinLobby])
    have hstate : (OnMenuSelection_LobbyBrowserMenuItem_t env selection w).state
        = env.SetGameState selection.m_eStateToTransitionTo
            (env.JoinLobby selection.m_steamIDLobby w.state) := by
      rw [hrun]
      rfl
    refine ⟨by rw [hstate, if_pos h], by rw [hiss, if_pos h], fun _ => hrun, ?_⟩
    rw [hiss]
    simp [h, Call.isJoinLobby, Call.isSetGameState]
  · have hrun : OnMenuSelection_LobbyBrowserMenuItem_t env selection w
        = SetGameState env selection.m_eStateToTransitionTo w := by
      simp [OnMenuSelection_LobbyBrowserMenuItem_t, h]
    have hiss : issued w (OnMenuSelection_LobbyBrowserMenuItem_t env selection w)
        = [Call.SetGameState selection.m_eStateToTransitionTo] :=
      issued_of_append w _ _ (by rw [hrun]; rfl)
    have hstate : (OnMenuSelection_LobbyBrowserMenuItem_t env selection w).state
        = env.SetGameState selection.m_eStateToTransitionTo w.state := by
      rw [hrun]
      rfl
    refine ⟨by rw [hstate, if_neg h], by rw [hiss, if_neg h], fun hj => absurd hj h, ?_⟩
    rw [hiss]
    refine ⟨by simp [h, Call.isJoinLobby], by simp [h, Call.isJoinLobby],
      by simp [Call.isSetGameState], by simp, ?_⟩
    intro _
    refine ⟨hrun, ?_⟩
    intro steamIDLobby
    rw [hrun]
    simp [OnMenuSelection_LobbyBrowserMenuItem_t, h]

/-- C10: `GetGameTicksFrameDelta` returns the difference of the two tick counts modulo
`2^64` and leaves the engine as it is; when the previous count is at most the current one
the result is the exact difference and adding it to the previous count gives the current
one; when the previous count is larger the result is `2^64` minus the gap, which is
positive and below `2^64`. -/
theorem GetGameTicksFrameDelta_mod (e : CGameEngineGL)
    (hc : e.m_ulGameTickCount < 2 ^ 64) (hp : e.m_ulPreviousGameTickCount < 2 ^ 64) :
    ((CGameEngineGL.GetGameTicksFrameDelta e).1 : Int)
        = ((e.m_ulGameTickCount : Int) - (e.m_ulPreviousGameTickCount : Int)) % 2 ^ 64
      ∧ (CGameEngineGL.GetGameTicksFrameDelta e).2 = e
      ∧ (e.m_ulPreviousGameTickCount ≤ e.m_ulGameTickCount →
          (CGameEngineGL.GetGameTicksFrameDelta e).1
              = e.m_ulGameTickCount - e.m_ulPreviousGameTickCount
            ∧ e.m_ulPreviousGameTickCount + (CGameEngineGL.GetGameTicksFrameDelta e).1
              = e.m_ulGameTickCount)
      ∧ (e.m_ulGameTickCount < e.m_ulPreviousGameTickCount →
          (CGameEngineGL.GetGameTicksFrameDelta e).1
              = 2 ^ 64 - (e.m_ulPreviousGameTickCount - e.m_ulGameTickCount)
            ∧ 0 < (CGameEngineGL.GetGameTicksFrameDelta e).1
            ∧ (CGameEngineGL.GetGameTicksFrameDelta e).1 < 2 ^ 64) := by
  have e64 : (2 : Nat) ^ 64 = 18446744073709551616 := by norm_num
  have hp' : @LT.lt Nat _ e.m_ulPreviousGameTickCount 18446744073709551616 := e64 ▸ hp
  refine ⟨uint64_sub_int _ _, rfl, ?_, ?_⟩
  · intro hle
    have hle' : @LE.le Nat _ e.m_ulPreviousGameTickCount e.m_ulGameTickCount := hle
    have hsub := uint64_sub_of_le e.m_ulGameTickCount e.m_ulPreviousGameTickCount hc hle
    show @Eq Nat (uint64_sub _ _) _ ∧ @Eq Nat (_ + uint64_sub _ _) _
    rw [hsub]
    omega
  · intro hlt
    have hlt' : @LT.lt Nat _ e.m_ulGameTickCount e.m_ulPreviousGameTickCount := hlt
    have hsub := uint64_sub_of_lt e.m_ulGameTickCount e.m_ulPreviousGameTickCount hp hlt
    show @Eq Nat (uint64_sub _ _) _ ∧ @LT.lt Nat _ 0 (uint64_sub _ _)
      ∧ @LT.lt Nat _ (uint64_sub _ _) _
    rw [hsub, e64]
    omega

/-- C10, at an engine whose previous count (7) is ahead of the current one (5): the delta
wraps to `2^64 - 2`. -/
theorem GetGameTicksFrameDelta_mod_witness :
    (sampleEngineBehind.m_ulGameTickCount < 2 ^ 64
        ∧ sampleEngineBehind.m_ulPreviousGameTickCount < 2 ^ 64)
      ∧ (CGameEngineGL.GetGameTicksFrameDelta sampleEngineBehind).1 = 18446744073709551614
      ∧ (CGameEngineGL.GetGameTicksFrameDelta sampleEngineBehind).2 = sampleEngineBehind
      ∧ (CGameEngineGL.GetGameTicksFrameDelta sampleEngine).1 = 16 :=
  have hc : sampleEngineBehind.m_ulGameTickCount < 2 ^ 64 := by decide
  have hp : sampleEngineBehind.m_ulPreviousGameTickCount < 2 ^ 64 := by decide
  have key := GetGameTicksFrameDelta_mod sampleEngineBehind hc hp
  ⟨⟨hc, hp⟩, (key.2.2.2 (by decide)).1, key.2.1,
    ((GetGameTicksFrameDelta_mod sampleEngine (by decide) (by decide)).2.2.1
      (by decide)).1⟩

/-- C4: while the connection status is `k_EClientNotConnected`, `BSendServerData` returns
false for every payload, size and reliability flag, nothing is invoked on the transport,
and the client (with everything it reaches) is unchanged; the session's own send rejects
the same call as well. -/
theorem BSendServerData_not_connected (t : Transport) (pData : List Nat)
    (nSizeOfData : uint32) (bSendReliably : Bool) (w : ClientWorld)
    (h : w.client.m_eConnectedStatus = EClientConnectionState.k_EClientNotConnected) :
    (BSendServerData t pData nSizeOfData bSendReliably w).1 = false
      ∧ (BSendServerData t pData nSizeOfData bSendReliably w).2.transport = w.transport
      ∧ (BSendServerData t pData nSizeOfData bSendReliably w).2 = w
      ∧ ConnectionSession_Send t (Payload.bytes pData nSizeOfData) bSendReliably w
        = (false, w) := by
  have hrun : BSendServerData t pData nSizeOfData bSendReliably w = (false, w) := by
    simp [BSendServerData, h]
  rw [hrun]
  refine ⟨rfl, rfl, rfl, ?_⟩
  simp [ConnectionSession_Send, h]

/-- C4, at the sample world (not connected): a reliable send of three bytes. -/
theorem BSendServerData_not_connected_witness :
    sampleWorld.client.m_eConnectedStatus = EClientConnectionState.k_EClientNotConnected
      ∧ (BSendServerData sampleTransport [1, 2, 3] 3 true sampleWorld).1 = false
      ∧ (BSendServerData sampleTransport [1, 2, 3] 3 true sampleWorld).2.transport = []
      ∧ (BSendServerData sampleTransport [1, 2, 3] 3 true sampleWorld).2 = sampleWorld :=
  have key := BSendServerData_not_connected sampleTransport [1, 2, 3] 3 true sampleWorld rfl
  ⟨rfl, key.1, key.2.1, key.2.2.1⟩

/-- C5: `DisconnectFromServer` is idempotent: from every state, after one call the
connection status is `k_EClientNotConnected`, and a second call (with any transport
behaviour) returns the state after the first call unchanged: nothing more is invoked on
the transport, so no further leaving notice is sent, and the error text is as it was. -/
theorem DisconnectFromServer_idempotent (t t' : Transport) (bNoticeReliable b' : Bool)
    (w : ClientWorld) :
    (DisconnectFromServer t bNoticeReliable w).client.m_eConnectedStatus
        = EClientConnectionState.k_EClientNotConnected
      ∧ DisconnectFromServer t' b' (DisconnectFromServer t bNoticeReliable w)
        = DisconnectFromServer t bNoticeReliable w
      ∧ (DisconnectFromServer t' b' (DisconnectFromServer t bNoticeReliable w)).transport
        = (DisconnectFromServer t bNoticeReliable w).transport
      ∧ (DisconnectFromServer t' b'
            (DisconnectFromServer t bNoticeReliable w)).client.m_rgchErrorText
        = (DisconnectFromServer t bNoticeReliable w).client.m_rgchErrorText := by
  have hstatus : (DisconnectFromServer t bNoticeReliable w).client.m_eConnectedStatus
      = EClientConnectionState.k_EClientNotConnected := by
    by_cases h : w.client.m_eConnectedStatus = EClientConnectionState.k_EClientNotConnected
    · simp [DisconnectFromServer, h]
    · simp [DisconnectFromServer, h]
  have hagain : DisconnectFromServer t' b' (DisconnectFromServer t bNoticeReliable w)
      = DisconnectFromServer t bNoticeReliable w := by
    generalize DisconnectFromServer t bNoticeReliable w = w1 at hstatus
    simp [DisconnectFromServer, hstatus]
  refine ⟨hstatus, hagain, ?_, ?_⟩ <;> rw [hagain]

/-- C6: while the connection status is not `k_EClientConnectedAndAuthenticated`,
processing a gameplay-update message in `ReceiveNetworkData` leaves the player roster
(`m_rgSteamIDPlayers`, `m_rgpShips`, `m_rguPlayerScores`) unchanged, whatever the handlers
do; more generally a batch of messages none of which is of a handshake kind leaves the
whole state unchanged. -/
theorem ReceiveNetworkData_handshake_ordering (h : Handlers) (w : ClientWorld)
    (hs : w.client.m_eConnectedStatus
      ≠ EClientConnectionState.k_EClientConnectedAndAuthenticated) :
    (∀ UpdateData : ServerSpaceWarUpdateData_t,
        roster (ReceiveNetworkData h [Message.gameplayUpdate UpdateData] w).client
            = roster w.client
          ∧ (ReceiveNetworkData h [Message.gameplayUpdate UpdateData] w).client.m_rgSteamIDPlayers
            = w.client.m_rgSteamIDPlayers
          ∧ (ReceiveNetworkData h [Message.gameplayUpdate UpdateData] w).client.m_rgpShips
            = w.client.m_rgpShips
          ∧ (ReceiveNetworkData h [Message.gameplayUpdate UpdateData] w).client.m_rguPlayerScores
            = w.client.m_rguPlayerScores)
      ∧ ∀ inbound : List Message, (∀ m ∈ inbound, m.kind.isHandshake = false) →
          ReceiveNetworkData h inbound w = w := by
  refine ⟨?_, fun inbound hk => ReceiveNetworkData_discard h inbound w hs hk⟩
  intro UpdateData
  have hrun : ReceiveNetworkData h [Message.gameplayUpdate UpdateData] w = w :=
    ReceiveNetworkData_discard h _ w hs (by
      intro m hm
      simp at hm
      subst hm
      rfl)
  rw [hrun]
  exact ⟨rfl, rfl, rfl, rfl⟩

/-- C6, at the sample client waiting for its authentication response: the sample update
is dropped, while the same update after a successful authentication response fills the
first two slots. -/
theorem ReceiveNetworkData_handshake_ordering_witness :
    samplePendingWorld.client.m_eConnectedStatus
        ≠ EClientConnectionState.k_EClientConnectedAndAuthenticated
      ∧ roster (ReceiveNetworkData sampleHandlers [Message.gameplayUpdate sampleUpdate]
          samplePendingWorld).client = ([0, 0, 0, 0], [none, none, none, none], [0, 0, 0, 0])
      ∧ ReceiveNetworkData sampleHandlers
          [Message.gameplayUpdate sampleUpdate, Message.serverExiting, Message.lobby 1]
          samplePendingWorld = samplePendingWorld
      ∧ roster (ReceiveNetworkData sampleHandlers
          [Message.authResponse true 1, Message.gameplayUpdate sampleUpdate]
          samplePendingWorld).client
        = ([76561197960265728, 76561197960265729, 0, 0], [some 1, some 2, none, none],
           [3, 1, 0, 0]) :=
  have key := ReceiveNetworkData_handshake_ordering sampleHandlers samplePendingWorld
    (by decide)
  ⟨by decide, (key.1 sampleUpdate).1,
    key.2 [Message.gameplayUpdate sampleUpdate, Message.serverExiting, Message.lobby 1]
      (by decide),
    by decide⟩

/-- C7: `BLocalPlayerWonLastGame` is a pure query: it returns true if and only if
`m_uPlayerWhoWonGame` equals `m_uPlayerShipIndex`, and it hands the client back
unchanged. -/
theorem BLocalPlayerWonLastGame_pure (c : CSpaceWarClient) :
    ((BLocalPlayerWonLastGame c).1 = true ↔ c.m_uPlayerWhoWonGame = c.m_uPlayerShipIndex)
      ∧ (BLocalPlayerWonLastGame c).2 = c := by
  refine ⟨?_, rfl⟩
  simp [BLocalPlayerWonLastGame]
